import Mathlib

/-!
# Shallow embedding of `libeye.c` (pylibeye)

This file embeds the capture-acquisition core of `src/libeye.c` in Lean 4.
The C module keeps its whole session in process-wide globals
(`display`, `screen`, `image`, `shminfo`, `rootwindow`, `pixmap`, `xid`,
`width`, `height`, `image_data`); we model those globals as an explicit
`SessionState` record threaded through each operation.  All interaction
with the X server (property queries, geometry queries, pixmap naming,
shared-memory image transfer) is modelled by oracle records (`PropResult`,
`OpenEnv`, `RefreshEnv`) supplying the results the server would return;
the Lean functions reproduce, branch for branch and assignment for
assignment, what the C code does with those results.

To reason about resource leaks and double releases we additionally thread
ledgers: `Resources` counts server/client resources acquired by
`create_acquisition`, and `CloseLog` counts the release calls issued by
`close_acquisition`.  The C functions themselves neither read nor branch
on these ledgers; they are pure bookkeeping of the side-effecting calls
the C code makes.
-/

/-- X11 window handle (`Window`): an opaque numeric id. -/
abbrev XWindow := Nat

/-- X11 pixmap handle; `0` models a null pixmap (`if (!pixmap)`). -/
abbrev XPixmap := Nat

/-- Outcome of the `XGetWindowProperty` query made by `find_client_window`:
`success` is whether the call returned `Success`, and `prop` is the returned
data pointer — `none` models a NULL `prop`, `some w` models a non-NULL
pointer whose first word is the window value `w` (`*(Window *)prop`). -/
structure PropResult where
  success : Bool
  prop : Option XWindow
  deriving Repr, DecidableEq

/-- `find_client_window` (libeye.c:34-49): if the `_NET_WM_FRAME_WINDOW`
property query returns `Success` with a non-NULL `prop`, return the window
value stored there; otherwise fall back to the input window. -/
def find_client_window (q : PropResult) (window : XWindow) : XWindow :=
  match q.success, q.prop with
  | true, some client_window => client_window
  | _, _ => window

/-- The `XWindowAttributes` fields `create_acquisition` reads. -/
structure WinAttrs where
  width : Nat
  height : Nat
  depth : Nat
  visual : Nat
  deriving Repr, DecidableEq

/-- The fields of the global `XImage *image` that the C code touches:
the geometry it was created with, `bytes_per_line`, and the `data`
pointer (`none` = NULL, as it is right after `XShmCreateImage`). -/
structure XImageDesc where
  width : Nat
  height : Nat
  depth : Nat
  bytes_per_line : Nat
  data : Option Nat
  deriving Repr, DecidableEq

/-- The global `XShmSegmentInfo shminfo`.  `shmid` is an `Int` because the
C code stores `shmget`'s return value and compares it with `-1`;
`shmaddr` is `none` while NULL (zero-initialised static). -/
structure ShmSegInfo where
  shmid : Int
  shmaddr : Option Nat
  readOnly : Bool
  deriving Repr, DecidableEq

/-- The process-wide globals of libeye.c:20-28, one field per global. -/
structure SessionState where
  display : Option Nat
  screen : Nat
  image : Option XImageDesc
  shminfo : ShmSegInfo
  rootwindow : XWindow
  pixmap : XPixmap
  xid : XWindow
  width : Nat
  height : Nat
  image_data : Option Nat
  deriving Repr, DecidableEq

/-- The static initialisation of the globals: pointers NULL, ints 0. -/
def initState : SessionState :=
  { display := none
    screen := 0
    image := none
    shminfo := { shmid := 0, shmaddr := none, readOnly := false }
    rootwindow := 0
    pixmap := 0
    xid := 0
    width := 0
    height := 0
    image_data := none }

/-- Ledger of resources acquired from the server / kernel during
`create_acquisition`.  Each counter is the number of currently live
instances of that resource class. -/
structure Resources where
  displayConns : Nat
  redirections : Nat
  namedPixmaps : Nat
  imageDescs : Nat
  shmSegments : Nat
  shmMappings : Nat
  serverShmAttaches : Nat
  deriving Repr, DecidableEq

/-- No resources held. -/
def Resources.zero : Resources :=
  { displayConns := 0, redirections := 0, namedPixmaps := 0, imageDescs := 0
    shmSegments := 0, shmMappings := 0, serverShmAttaches := 0 }

/-- The server/kernel responses consumed by one `create_acquisition` call,
in the order the C code issues the requests. -/
structure OpenEnv where
  /-- `XOpenDisplay(NULL)`: `none` = NULL, `some d` = connection pointer. -/
  openDisplay : Option Nat
  /-- `DefaultScreen(display)`. -/
  defaultScreen : Nat
  /-- the `XGetWindowProperty` outcome inside `find_client_window`. -/
  frameQuery : PropResult
  /-- `XGetWindowAttributes`: `none` = status 0 (failure). -/
  attrs : Option WinAttrs
  /-- `XCompositeQueryExtension` status. -/
  compositeOk : Bool
  /-- `XCompositeNameWindowPixmap`: `0` = null pixmap. -/
  namePixmap : XPixmap
  /-- `XShmCreateImage`: `none` = NULL, `some bpl` = image with that
  `bytes_per_line`. -/
  shmCreateImage : Option Nat
  /-- `shmget`: `none` = `-1` (failure), `some id` = segment id. -/
  shmget : Option Nat
  /-- `shmat` result address. -/
  shmat : Nat
  /-- `XShmAttach` status. -/
  shmAttachOk : Bool
  /-- `DefaultRootWindow(display)`. -/
  rootWindow : XWindow
  deriving Repr, DecidableEq

/-- `create_acquisition` (libeye.c:120-172), assignment for assignment.
Returns the C return value (`0` ok, `-1` failure) together with the
globals after the call and the resource ledger after the call.  Note the
C code returns `-1` from every failure branch without releasing anything
acquired so far and without resetting the globals already assigned. -/
def create_acquisition (env : OpenEnv) (window_id : XWindow)
    (s : SessionState) (r : Resources) : Int × SessionState × Resources :=
  match env.openDisplay with
  | none => (-1, { s with display := none }, r)
  | some d =>
    let s := { s with display := some d }
    let r := { r with displayConns := r.displayConns + 1 }
    let s := { s with screen := env.defaultScreen }
    let s := { s with xid := find_client_window env.frameQuery window_id }
    match env.attrs with
    | none => (-1, s, r)
    | some attr =>
      let s := { s with width := attr.width, height := attr.height }
      if !env.compositeOk then (-1, s, r)
      else
        -- XCompositeRedirectWindow(display, xid, CompositeRedirectAutomatic)
        let r := { r with redirections := r.redirections + 1 }
        let s := { s with pixmap := env.namePixmap }
        let r := if env.namePixmap = 0 then r
                 else { r with namedPixmaps := r.namedPixmaps + 1 }
        if env.namePixmap = 0 then (-1, s, r)
        else
          match env.shmCreateImage with
          | none => (-1, { s with image := none }, r)
          | some bpl =>
            let img : XImageDesc :=
              { width := attr.width, height := attr.height
                depth := attr.depth, bytes_per_line := bpl, data := none }
            let s := { s with image := some img }
            let r := { r with imageDescs := r.imageDescs + 1 }
            match env.shmget with
            | none => (-1, { s with shminfo := { s.shminfo with shmid := -1 } }, r)
            | some segId =>
              let s := { s with shminfo := { s.shminfo with shmid := (segId : Int) } }
              let r := { r with shmSegments := r.shmSegments + 1 }
              -- shminfo.shmaddr = image->data = shmat(shminfo.shmid, NULL, 0)
              let s := { s with
                          shminfo := { s.shminfo with shmaddr := some env.shmat }
                          image := some { img with data := some env.shmat } }
              let r := { r with shmMappings := r.shmMappings + 1 }
              let s := { s with shminfo := { s.shminfo with readOnly := false } }
              if !env.shmAttachOk then (-1, s, r)
              else
                let r := { r with serverShmAttaches := r.serverShmAttaches + 1 }
                let s := { s with rootwindow := env.rootWindow }
                (0, s, r)

/-- The server responses consumed by one `update_array` call, plus the
window's current on-screen geometry.  The C code never queries or compares
the current geometry — `curWidth`/`curHeight` are carried here precisely
to show that nothing in `update_array` depends on them. -/
structure RefreshEnv where
  /-- `XCompositeNameWindowPixmap` on refresh: `0` = null pixmap. -/
  namePixmap : XPixmap
  /-- `XShmGetImage` status. -/
  shmGetImageOk : Bool
  /-- bytes the server deposits in the shared buffer if the transfer
  succeeds. -/
  newContents : List Nat
  /-- the window's current on-screen width (external, unread by the code). -/
  curWidth : Nat
  /-- the window's current on-screen height (external, unread by the code). -/
  curHeight : Nat
  deriving Repr, DecidableEq

/-- `update_array` (libeye.c:177-193).  `buf` is the byte content of the
shared-memory buffer; a successful `XShmGetImage` overwrites it with the
server-supplied bytes, a failed call leaves it as it was.  Returns the C
return value, the globals after the call, and the buffer after the call. -/
def update_array (env : RefreshEnv) (s : SessionState) (buf : List Nat) :
    Int × SessionState × List Nat :=
  match s.display, s.image with
  | some _, some img =>
    let s := { s with pixmap := env.namePixmap }
    if env.namePixmap = 0 then (-1, s, buf)
    else if !env.shmGetImageOk then (-1, s, buf)
    else (0, { s with image_data := img.data }, env.newContents)
  | _, _ => (-1, s, buf)

/-- `get_image_data` (libeye.c:198-200): returns the `image_data` global. -/
def get_image_data (s : SessionState) : Option Nat :=
  s.image_data

/-- `get_window_size` (libeye.c:205-208): writes the `width` and `height`
globals through the out-parameters; modelled as returning the pair. -/
def get_window_size (s : SessionState) : Nat × Nat :=
  (s.width, s.height)

/-- `get_stride` (libeye.c:213-215): `image ? image->bytes_per_line : 0`. -/
def get_stride (s : SessionState) : Nat :=
  match s.image with
  | some img => img.bytes_per_line
  | none => 0

/-- Counts of the release calls issued by `close_acquisition`. -/
structure CloseLog where
  shmDetachCalls : Nat
  shmdtCalls : Nat
  shmRemoveCalls : Nat
  destroyImageCalls : Nat
  closeDisplayCalls : Nat
  deriving Repr, DecidableEq

/-- No release calls issued yet. -/
def CloseLog.zero : CloseLog :=
  { shmDetachCalls := 0, shmdtCalls := 0, shmRemoveCalls := 0
    destroyImageCalls := 0, closeDisplayCalls := 0 }

/-- `close_acquisition` (libeye.c:220-231): if `image` is non-NULL, issue
`XShmDetach`, `shmdt`, `shmctl(IPC_RMID)` and `XDestroyImage`; if
`display` is non-NULL, issue `XCloseDisplay`.  The C function assigns to
no global — `display`, `image`, `image_data`, … all keep their values —
so the returned state equals the input state. -/
def close_acquisition (s : SessionState) (log : CloseLog) :
    SessionState × CloseLog :=
  let log :=
    if s.image.isSome then
      { log with
          shmDetachCalls := log.shmDetachCalls + 1
          shmdtCalls := log.shmdtCalls + 1
          shmRemoveCalls := log.shmRemoveCalls + 1
          destroyImageCalls := log.destroyImageCalls + 1 }
    else log
  let log :=
    if s.display.isSome then
      { log with closeDisplayCalls := log.closeDisplayCalls + 1 }
    else log
  (s, log)

/-- Run a sequence of `update_array` calls, threading state and buffer. -/
def runRefreshes : List RefreshEnv → SessionState × List Nat →
    SessionState × List Nat
  | [], sb => sb
  | e :: es, (s, b) => runRefreshes es (update_array e s b).2

/-! ## Concrete scenarios

Concrete server-response environments used by the closed theorems and
witnesses below.  `openEnvOk` is a run in which every server call
succeeds for an 800×600, depth-24 window; the failing variants flip a
single step. -/

/-- A fully successful open: server connection `1`, no frame indirection,
window 800×600 depth 24, pixmap `9`, stride 3200, shm segment `77`
mapped at address `4096`. -/
def openEnvOk : OpenEnv :=
  { openDisplay := some 1
    defaultScreen := 0
    frameQuery := { success := false, prop := none }
    attrs := some { width := 800, height := 600, depth := 24, visual := 3 }
    compositeOk := true
    namePixmap := 9
    shmCreateImage := some 3200
    shmget := some 77
    shmat := 4096
    shmAttachOk := true
    rootWindow := 1 }

/-- Same run, but the final `XShmAttach` fails. -/
def openEnvFailAttach : OpenEnv := { openEnvOk with shmAttachOk := false }

/-- Same run, but `shmget` fails (returns `-1`). -/
def openEnvFailShmget : OpenEnv := { openEnvOk with shmget := none }

/-- Globals after the fully successful open of window `7`. -/
def sessionOpen : SessionState :=
  (create_acquisition openEnvOk 7 initState Resources.zero).2.1

/-- Globals after the open attempt that fails at `shmget`: note that
`display` and `image` are both still set. -/
def sessionFailedOpen : SessionState :=
  (create_acquisition openEnvFailShmget 7 initState Resources.zero).2.1

/-- A successful refresh: fresh pixmap `5`, transfer succeeds, window
still 800×600 on screen. -/
def refreshOk : RefreshEnv :=
  { namePixmap := 5, shmGetImageOk := true, newContents := [10, 11, 12]
    curWidth := 800, curHeight := 600 }

/-- A refresh after the window was externally resized to 1024×768; the
server still hands out a pixmap and the transfer succeeds. -/
def refreshResized : RefreshEnv := { refreshOk with curWidth := 1024, curHeight := 768 }

/-- A refresh whose `XCompositeNameWindowPixmap` returns a null pixmap. -/
def refreshNullPixmap : RefreshEnv := { refreshOk with namePixmap := 0 }

/-- A refresh whose pixmap request yields `6` but whose `XShmGetImage`
transfer fails. -/
def refreshTransferFail : RefreshEnv :=
  { namePixmap := 6, shmGetImageOk := false, newContents := [99]
    curWidth := 800, curHeight := 600 }

/-! ## Helper lemmas shared by several developments -/

/-- `update_array` never touches the `width`, `height` or `image` globals:
only `pixmap` and `image_data` can change. -/
theorem update_array_preserves_fields (e : RefreshEnv) (s : SessionState)
    (b : List Nat) :
    ((update_array e s b).2.1).width = s.width ∧
    ((update_array e s b).2.1).height = s.height ∧
    ((update_array e s b).2.1).image = s.image := by
  rcases hd : s.display with _ | d
  · simp [update_array, hd]
  · rcases hi : s.image with _ | img
    · simp [update_array, hd, hi]
    · by_cases hp : e.namePixmap = 0
      · simp [update_array, hd, hi, hp]
      · cases hg : e.shmGetImageOk <;> simp [update_array, hd, hi, hp, hg]

/-- Running any sequence of refreshes leaves `width`, `height` and
`image` unchanged. -/
theorem runRefreshes_preserves_fields (es : List RefreshEnv) :
    ∀ p : SessionState × List Nat,
      (runRefreshes es p).1.width = p.1.width ∧
      (runRefreshes es p).1.height = p.1.height ∧
      (runRefreshes es p).1.image = p.1.image := by
  induction es with
  | nil => intro p; exact ⟨rfl, rfl, rfl⟩
  | cons e es ih =>
    rintro ⟨s, b⟩
    have hstep := update_array_preserves_fields e s b
    have hrec := ih (update_array e s b).2
    refine ⟨?_, ?_, ?_⟩
    · show (runRefreshes es (update_array e s b).2).1.width = s.width
      rw [hrec.1, hstep.1]
    · show (runRefreshes es (update_array e s b).2).1.height = s.height
      rw [hrec.2.1, hstep.2.1]
    · show (runRefreshes es (update_array e s b).2).1.image = s.image
      rw [hrec.2.2, hstep.2.2]

/-- A successful `update_array` call happens only with a non-NULL `image`
global, and it sets `image_data` to that image's `data` pointer. -/
theorem update_array_success_image_data (e : RefreshEnv) (s : SessionState)
    (b : List Nat) (h : (update_array e s b).1 = 0) :
    ∃ img, s.image = some img ∧
      get_image_data (update_array e s b).2.1 = img.data := by
  rcases hd : s.display with _ | d
  · simp [update_array, hd] at h
  · rcases hi : s.image with _ | img
    · simp [update_array, hd, hi] at h
    · by_cases hp : e.namePixmap = 0
      · simp [update_array, hd, hi, hp] at h
      · cases hg : e.shmGetImageOk
        · simp [update_array, hd, hi, hp, hg] at h
        · exact ⟨img, rfl, by simp [get_image_data, update_array, hd, hi, hp, hg]⟩

/-- On a successful open the dimension globals hold the geometry snapshot
returned by `XGetWindowAttributes` during that open. -/
theorem create_acquisition_success_dims (env : OpenEnv) (w : XWindow)
    (s : SessionState) (r : Resources) (a : WinAttrs)
    (ha : env.attrs = some a)
    (h : (create_acquisition env w s r).1 = 0) :
    ((create_acquisition env w s r).2.1).width = a.width ∧
    ((create_acquisition env w s r).2.1).height = a.height := by
  rcases hd : env.openDisplay with _ | d
  · simp [create_acquisition, hd] at h
  · cases hc : env.compositeOk
    · simp [create_acquisition, hd, ha, hc] at h
    · by_cases hp : env.namePixmap = 0
      · simp [create_acquisition, hd, ha, hc, hp] at h
      · rcases hi : env.shmCreateImage with _ | bpl
        · simp [create_acquisition, hd, ha, hc, hp, hi] at h
        · rcases hg : env.shmget with _ | segId
          · simp [create_acquisition, hd, ha, hc, hp, hi, hg] at h
          · cases hA : env.shmAttachOk
            · simp [create_acquisition, hd, ha, hc, hp, hi, hg, hA] at h
            · simp [create_acquisition, hd, ha, hc, hp, hi, hg, hA]

/-! ## Claim theorems -/

/-- C4: for every window handle, `find_client_window` returns the value of
the frame-window indirection property when the property query succeeds
and yields a (non-NULL) window value, and returns the input handle
unchanged in every other case (query failure or NULL property data);
resolution is total and never fails. -/
theorem find_client_window_spec (q : PropResult) (w : XWindow) :
    (∀ cw, q.success = true → q.prop = some cw → find_client_window q w = cw) ∧
    ((q.success = false ∨ q.prop = none) → find_client_window q w = w) := by
  constructor
  · intro cw hs hp
    simp [find_client_window, hs, hp]
  · intro hcase
    rcases hcase with hs | hp
    · rcases hq : q.prop with _ | cw <;> simp [find_client_window, hs, hq]
    · cases hs : q.success <;> simp [find_client_window, hs, hp]

/-- Witness for C4: a successful query with value 42 resolves handle 7 to
42; a failed query leaves handle 7 unchanged. -/
theorem find_client_window_spec_witness :
    find_client_window { success := true, prop := some 42 } 7 = 42 ∧
    find_client_window { success := false, prop := some 42 } 7 = 7 :=
  ⟨(find_client_window_spec { success := true, prop := some 42 } 7).1 42 rfl rfl,
   (find_client_window_spec { success := false, prop := some 42 } 7).2 (Or.inl rfl)⟩

/-- C5 (amended): `update_array` returns `-1` and changes neither the
globals nor the buffer whenever the `display` or the `image` global is
NULL — in particular in the pristine initial state and after a proper
teardown of those globals.  (The unamended claim quantified over every
state reachable without a successful open; see the counterexample.) -/
theorem update_array_closed_guard (e : RefreshEnv) (s : SessionState)
    (b : List Nat) (h : s.display = none ∨ s.image = none) :
    update_array e s b = (-1, s, b) := by
  rcases h with h | h
  · simp [update_array, h]
  · rcases hd : s.display with _ | d <;> simp [update_array, h, hd]

/-- Witness for C5 (amended): refresh from the initial state fails and
leaves everything unchanged. -/
theorem update_array_closed_guard_witness :
    update_array refreshOk initState [] = (-1, initState, []) :=
  update_array_closed_guard refreshOk initState [] (Or.inl rfl)

/-- Counterexample to C5 as stated: after an open attempt that failed at
`shmget` (so no successful Open has ever occurred), `update_array` does
not fail — it returns `0` and mutates the session state (the `pixmap`
global changes), because the failed open left both `display` and `image`
set and the guard does not fire. -/
theorem update_array_closed_claim_counterexample :
    (create_acquisition openEnvFailShmget 7 initState Resources.zero).1 = -1 ∧
    (update_array refreshOk sessionFailedOpen []).1 = 0 ∧
    (update_array refreshOk sessionFailedOpen []).2.1 ≠ sessionFailedOpen := by
  decide

/-- C9: a refresh that fails in an open session — null re-requested
pixmap or failed image transfer — returns `-1`, leaves the shared buffer
bytes exactly as the previous successful refresh left them, and does not
update the `image_data` pointer. -/
theorem update_array_failure_preserves_buffer (e : RefreshEnv)
    (s : SessionState) (b : List Nat) (d : Nat) (img : XImageDesc)
    (hd : s.display = some d) (hi : s.image = some img)
    (hfail : e.namePixmap = 0 ∨ e.shmGetImageOk = false) :
    (update_array e s b).1 = -1 ∧
    (update_array e s b).2.2 = b ∧
    get_image_data (update_array e s b).2.1 = get_image_data s := by
  rcases hfail with hp | hg
  · simp [update_array, get_image_data, hd, hi, hp]
  · by_cases hp : e.namePixmap = 0
    · simp [update_array, get_image_data, hd, hi, hp]
    · simp [update_array, get_image_data, hd, hi, hp, hg]

/-- Witness for C9: in the freshly opened session, a refresh that gets a
null pixmap returns `-1` with buffer and `image_data` untouched. -/
theorem update_array_failure_preserves_buffer_witness :
    (update_array refreshNullPixmap sessionOpen [7]).1 = -1 ∧
    (update_array refreshNullPixmap sessionOpen [7]).2.2 = [7] ∧
    get_image_data (update_array refreshNullPixmap sessionOpen [7]).2.1 =
      get_image_data sessionOpen :=
  update_array_failure_preserves_buffer refreshNullPixmap sessionOpen [7] 1
    { width := 800, height := 600, depth := 24, bytes_per_line := 3200
      data := some 4096 }
    rfl rfl (Or.inl rfl)

/-- C10: a refresh that fails at the image-transfer step has already
reassigned the `pixmap` global to the newly requested pixmap: the call
returns `-1` and leaves the buffer and `image_data` unchanged, but the
resulting state's `pixmap` equals the fresh pixmap handle, not
necessarily the one stored before the call. -/
theorem update_array_transfer_failure_mutates_pixmap (e : RefreshEnv)
    (s : SessionState) (b : List Nat) (d : Nat) (img : XImageDesc)
    (hd : s.display = some d) (hi : s.image = some img)
    (hp : e.namePixmap ≠ 0) (hg : e.shmGetImageOk = false) :
    (update_array e s b).1 = -1 ∧
    ((update_array e s b).2.1).pixmap = e.namePixmap ∧
    (update_array e s b).2.2 = b ∧
    get_image_data (update_array e s b).2.1 = get_image_data s := by
  simp [update_array, get_image_data, hd, hi, hp, hg]

/-- Witness for C10: the opened session stores pixmap `9`; a refresh that
obtains pixmap `6` and then fails the transfer leaves `pixmap = 6`. -/
theorem update_array_transfer_failure_mutates_pixmap_witness :
    sessionOpen.pixmap = 9 ∧ refreshTransferFail.namePixmap = 6 ∧
    ((update_array refreshTransferFail sessionOpen []).1 = -1 ∧
     ((update_array refreshTransferFail sessionOpen []).2.1).pixmap =
       refreshTransferFail.namePixmap ∧
     (update_array refreshTransferFail sessionOpen []).2.2 = [] ∧
     get_image_data (update_array refreshTransferFail sessionOpen []).2.1 =
       get_image_data sessionOpen) :=
  ⟨rfl, rfl,
   update_array_transfer_failure_mutates_pixmap refreshTransferFail sessionOpen [] 1
     { width := 800, height := 600, depth := 24, bytes_per_line := 3200
       data := some 4096 }
     rfl rfl (by decide) rfl⟩

/-- C7: after a successful open, `get_window_size` returns the geometry
snapshot taken by that open, and it still returns the same pair after any
sequence of refresh calls — including refreshes during which the window's
on-screen geometry (`curWidth`/`curHeight`) is arbitrary — because
`update_array` never writes the dimension globals. -/
theorem get_window_size_stable (env : OpenEnv) (w : XWindow)
    (s : SessionState) (r : Resources) (a : WinAttrs)
    (ha : env.attrs = some a)
    (h : (create_acquisition env w s r).1 = 0)
    (es : List RefreshEnv) (b : List Nat) :
    get_window_size
        (runRefreshes es ((create_acquisition env w s r).2.1, b)).1 =
      (a.width, a.height) := by
  have hdims := create_acquisition_success_dims env w s r a ha h
  have hrun :=
    runRefreshes_preserves_fields es ((create_acquisition env w s r).2.1, b)
  simp [get_window_size, hrun.1, hrun.2.1, hdims.1, hdims.2]

/-- Witness for C7: the 800×600 open still reports (800, 600) after a
refresh during an external resize to 1024×768 and a failed refresh. -/
theorem get_window_size_stable_witness :
    get_window_size
        (runRefreshes [refreshResized, refreshTransferFail]
          ((create_acquisition openEnvOk 7 initState Resources.zero).2.1, [])).1 =
      (800, 600) :=
  get_window_size_stable openEnvOk 7 initState Resources.zero
    { width := 800, height := 600, depth := 24, visual := 3 } rfl rfl
    [refreshResized, refreshTransferFail] []

/-- C8: the buffer pointer is stable within a session — after a first
successful refresh, any later successful refresh (with arbitrary
refreshes in between) leaves `get_image_data` returning the same address,
because every successful refresh copies the unchanged `image->data`
pointer into `image_data` and nothing in `update_array` rewrites
`image`. -/
theorem image_data_stable (e1 e2 : RefreshEnv) (es : List RefreshEnv)
    (s : SessionState) (b : List Nat)
    (h1 : (update_array e1 s b).1 = 0)
    (h2 : (update_array e2 (runRefreshes es (update_array e1 s b).2).1
             (runRefreshes es (update_array e1 s b).2).2).1 = 0) :
    get_image_data
        (update_array e2 (runRefreshes es (update_array e1 s b).2).1
          (runRefreshes es (update_array e1 s b).2).2).2.1 =
      get_image_data (update_array e1 s b).2.1 := by
  obtain ⟨img, hsimg, hdata1⟩ := update_array_success_image_data e1 s b h1
  obtain ⟨img2, hmidimg, hdata2⟩ := update_array_success_image_data e2 _ _ h2
  have hpres := (update_array_preserves_fields e1 s b).2.2
  have hrunpres :=
    (runRefreshes_preserves_fields es (update_array e1 s b).2).2.2
  have hmid : (runRefreshes es (update_array e1 s b).2).1.image = some img := by
    rw [hrunpres, hpres, hsimg]
  rw [hmid] at hmidimg
  rw [hdata2, hdata1, Option.some.inj hmidimg]

/-- Witness for C8: first successful refresh, then a failed refresh, then
another successful refresh — the reported buffer address is unchanged. -/
theorem image_data_stable_witness :
    get_image_data
        (update_array refreshOk
          (runRefreshes [refreshTransferFail]
            (update_array refreshOk sessionOpen []).2).1
          (runRefreshes [refreshTransferFail]
            (update_array refreshOk sessionOpen []).2).2).2.1 =
      get_image_data (update_array refreshOk sessionOpen []).2.1 :=
  image_data_stable refreshOk refreshOk [refreshTransferFail] sessionOpen [] rfl rfl

/-- C1 fails on the code: an open attempt in which every step succeeds
until `XShmAttach` fails returns `-1` while still holding one display
connection, one window redirection, one named pixmap, one image
descriptor, one shm segment and one shm mapping — nothing acquired during
the attempt is released — and the globals remain set (`display` and
`image` non-NULL), so the session is not back in the Closed state. -/
theorem create_acquisition_failure_leaks_resources :
    (create_acquisition openEnvFailAttach 7 initState Resources.zero).1 = -1 ∧
    (create_acquisition openEnvFailAttach 7 initState Resources.zero).2.2 =
      { displayConns := 1, redirections := 1, namedPixmaps := 1
        imageDescs := 1, shmSegments := 1, shmMappings := 1
        serverShmAttaches := 0 } ∧
    (create_acquisition openEnvFailAttach 7 initState Resources.zero).2.1.display =
      some 1 ∧
    (create_acquisition openEnvFailAttach 7 initState Resources.zero).2.1.image ≠
      none := by
  decide

/-- C2 fails on the code: after a successful open, calling
`close_acquisition` twice issues every release call twice — the function
never resets the `image` and `display` globals, so the second call
re-detaches, re-removes the shm segment, re-destroys the image and
re-closes the display.  (From the pristine initial state a close is
indeed a no-op, as the second conjunct records.) -/
theorem close_acquisition_double_release :
    ((close_acquisition
        (close_acquisition sessionOpen CloseLog.zero).1
        (close_acquisition sessionOpen CloseLog.zero).2).2 =
      { shmDetachCalls := 2, shmdtCalls := 2, shmRemoveCalls := 2
        destroyImageCalls := 2, closeDisplayCalls := 2 }) ∧
    close_acquisition initState CloseLog.zero = (initState, CloseLog.zero) := by
  decide

/-- C3 fails on the code: with the session opened at 800×600 and the
window meanwhile resized on screen to 1024×768, `update_array` performs
no geometry comparison — it returns success (`0`) and overwrites the
buffer with the server-supplied bytes for the stale 800×600 region, a
silent truncation of the grown window rather than a reported failure.
(The image descriptor is indeed never reallocated, as the last conjunct
records.) -/
theorem update_array_geometry_divergence_not_detected :
    sessionOpen.width = 800 ∧ sessionOpen.height = 600 ∧
    refreshResized.curWidth = 1024 ∧ refreshResized.curHeight = 768 ∧
    (update_array refreshResized sessionOpen [0]).1 = 0 ∧
    (update_array refreshResized sessionOpen [0]).2.2 =
      refreshResized.newContents ∧
    (update_array refreshResized sessionOpen [0]).2.1.image =
      sessionOpen.image := by
  decide

/-- C6 fails on the code: after a successful open, a successful refresh
and then `close_acquisition`, the accessors still return the stale
values — `get_image_data` the old buffer address, `get_stride` the old
stride, `get_window_size` the old geometry — and a further `update_array`
call passes the NULL guard and even reports success, because close never
resets the globals. -/
theorem accessors_live_after_close :
    (close_acquisition (update_array refreshOk sessionOpen []).2.1
        CloseLog.zero).1 = (update_array refreshOk sessionOpen []).2.1 ∧
    get_image_data
      (close_acquisition (update_array refreshOk sessionOpen []).2.1
        CloseLog.zero).1 = some 4096 ∧
    get_stride
      (close_acquisition (update_array refreshOk sessionOpen []).2.1
        CloseLog.zero).1 = 3200 ∧
    get_window_size
      (close_acquisition (update_array refreshOk sessionOpen []).2.1
        CloseLog.zero).1 = (800, 600) ∧
    (update_array refreshOk
      (close_acquisition (update_array refreshOk sessionOpen []).2.1
        CloseLog.zero).1 [1, 2, 3]).1 = 0 := by
  decide
